import Mathlib

/-!
Verification of the typed key-value accessor / property-bridge layer of
Source.Python (files `core/modules/entities/entities_entity.h` and
`core/modules/entities/entities_props_wrap_python.cpp`), shallowly embedded
in Lean 4.

The entity key-value codec (`CBaseEntityWrapper::GetKeyValueString`,
`GetKeyValueBool`, `GetKeyValueVector`, `GetKeyValueColor`,
`SetKeyValueColor`, `SetKeyValue`) is embedded over an explicit model of the
external engine field store (`IServerTools::GetKeyValue` / `SetKeyValue`),
and the `DVariant` accessor bindings of `export_send_prop_variant` are
embedded over a model of the `SendPropVariantExt` templates.
-/

namespace SourcePython

/-- Errors raised by the key-value codec, abstracting the Python exceptions
of the source: `fieldNotFound` is the `PyExc_NameError` raised with the field
name and the entity's data-description class name when the engine store
reports failure; `formatError` abstracts the shape failures (the
`PyExc_ValueError` raised by `GetKeyValueVector`, and the Python `ValueError`
or `IndexError` escaping the `eval`ed lambda of `GetKeyValueColor`). -/
inductive KVError where
  | fieldNotFound (name : String) (dataClassName : String)
  | formatError
deriving DecidableEq, Repr

/-- A raw key-value buffer as filled by the engine store (the
`char szResult[MAX_KEY_VALUE_LENGTH]` of the source). It carries both of the
interpretations the source applies to those bytes: `asText` is the buffer
content read as inline NUL-terminated text (`str(szResult)`), and `deref` is
the text obtained by reading the leading pointer-sized bytes as a reference
to an interned string and dereferencing it once (`*(char **) szResult`).
Reading pointer bytes always yields some byte sequence, so `deref` is total;
which string it is depends on the engine state that produced the buffer. -/
structure Buffer where
  asText : String
  deref : String
deriving DecidableEq, Repr

/-- Modelled from the spec: an entity as seen through the external engine
field store, which is not part of this repository (`IServerTools` is engine
code). Per the spec, the store exposes per-entity named text fields capped
at a fixed-length buffer, and each entity belongs to one schema class whose
name (`GetDataDescMap()->dataClassName`) is used in error messages. `fields`
maps a field name to the raw buffer the store fills for it, `none` when the
field is not part of the entity's schema. -/
structure EntityState where
  dataClassName : String
  fields : String → Option Buffer

/-- Modelled from the spec: `IServerTools::GetKeyValue` (engine code, not in
this repository): fills the caller's buffer and returns true exactly when
the field exists for the entity's schema. Modelled as returning the filled
buffer on success. -/
def engineGetKeyValue (e : EntityState) (name : String) : Option Buffer :=
  e.fields name

/-- Modelled from the spec: `IServerTools::SetKeyValue` (engine code, not in
this repository). Per the spec, every value round-trips through the
fixed-length text buffer. For the field literally named "model" the engine
interns the written string, and the buffer subsequently fetched for that
field holds an embedded pointer-sized reference to the interned entry rather
than inline text: its leading bytes dereference to the written text, while
reading those raw pointer bytes as inline text gives an engine-dependent
byte sequence. For every other field the buffer holds the written text
inline, and what its leading bytes dereference to is engine-dependent. The
engine-dependent byte readings, which the spec leaves unspecified, are
supplied by the `reinterp` parameter. `writtenBuffer` is the buffer the
store holds for field `name` after the text `v` is written to it;
`engineSetKeyValue` returns `none` (the C++ false) when the field is not
part of the entity's schema. -/
def writtenBuffer (reinterp : String → String) (name v : String) : Buffer :=
  if name = "model" then ⟨reinterp v, v⟩ else ⟨v, reinterp v⟩

/-- Modelled from the spec: the update `IServerTools::SetKeyValue` performs
on the store (see `writtenBuffer` for the per-field buffer semantics). -/
def engineSetKeyValue (reinterp : String → String) (e : EntityState)
    (name v : String) : Option EntityState :=
  match e.fields name with
  | none => none
  | some _ =>
      some { e with fields := fun n =>
        if n = name then some (writtenBuffer reinterp name v) else e.fields n }

/-- `CBaseEntityWrapper::GetKeyValueString`: fetches the raw buffer through
the engine store, raising `NameError` with the field name and the schema
class name when the store reports failure. For the field literally named
"model" the buffer is dereferenced once more (`*(char **) szResult`);
for every other field the buffer content itself is the result. -/
def GetKeyValueString (e : EntityState) (name : String) : Except KVError String :=
  match engineGetKeyValue e name with
  | none => .error (.fieldNotFound name e.dataClassName)
  | some buf => if name = "model" then .ok buf.deref else .ok buf.asText

/-- `CBaseEntityWrapper::SetKeyValue` (instantiated at string values):
delegates to the engine store's raw setter and raises `NameError` with the
field name and the schema class name when the store reports failure. -/
def SetKeyValue (reinterp : String → String) (e : EntityState)
    (name v : String) : Except KVError EntityState :=
  match engineSetKeyValue reinterp e name v with
  | none => .error (.fieldNotFound name e.dataClassName)
  | some e2 => .ok e2

/-- `CBaseEntityWrapper::GetKeyValueBool`: true exactly when the string form
of the field compares equal (`strcmp`) to "1". -/
def GetKeyValueBool (e : EntityState) (name : String) : Except KVError Bool :=
  match GetKeyValueString e name with
  | .error err => .error err
  | .ok s => .ok (s = "1")

/-- Fold a list of decimal digit characters into the natural number they
denote, most significant first. -/
def digitsToNat (l : List Char) : Nat :=
  l.foldl (fun a c => a * 10 + (c.toNat - 48)) 0

/-- Split a character list at every character satisfying `p`, keeping empty
pieces; the current piece is accumulated in reverse in `acc`. -/
def splitPredAux (p : Char → Bool) : List Char → List Char → List String
  | [], acc => [String.mk acc.reverse]
  | c :: rest, acc =>
      if p c then String.mk acc.reverse :: splitPredAux p rest []
      else splitPredAux p rest (c :: acc)

/-- Python `str.split` with an explicit single-character separator, as in
the `x.split(' ')` of `GetKeyValueColor`: every occurrence of the separator
ends a piece, and empty pieces are kept. -/
def pySplitChar (sep : Char) (s : String) : List String :=
  splitPredAux (fun c => c = sep) s.data []

/-- A character list with leading and trailing whitespace removed. -/
def trimChars (l : List Char) : List Char :=
  ((l.dropWhile Char.isWhitespace).reverse.dropWhile Char.isWhitespace).reverse

/-- A nonempty all-digit character list read as a natural number; `none`
otherwise. -/
def readDigits (l : List Char) : Option Nat :=
  if l ≠ [] ∧ l.all Char.isDigit then some (digitsToNat l) else none

/-- Modelled from the spec: the Python built-in `int` applied to one string,
as invoked by the `eval`ed lambda of `GetKeyValueColor` (the embedded Python
interpreter is external to this repository). Surrounding whitespace is
stripped, then an optional sign followed by at least one decimal digit is
accepted; anything else raises `ValueError`. -/
def pyInt (s : String) : Option Int :=
  match trimChars s.data with
  | '-' :: rest => (readDigits rest).map (fun n => -(n : Int))
  | '+' :: rest => (readDigits rest).map (fun n => (n : Int))
  | l => (readDigits l).map (fun n => (n : Int))

/-- `CBaseEntityWrapper::GetKeyValueColor`: applies the Python lambda
`lambda x: tuple(map(int, x.split(' ')))` to the string form of the field,
then extracts elements 0 to 3 of the tuple and builds the color from them.
Python `x.split(' ')` (single-space separator, modelled by
`pySplitChar ' '`) keeps empty tokens; `int` is mapped over every token
(`ValueError` when one fails to parse); indexing past the end of the tuple
raises `IndexError`. Both escaping exceptions are `formatError` here. The
four extracted integers are returned as the (r, g, b, a) tuple handed to the
external `Color` constructor. -/
def GetKeyValueColor (e : EntityState) (name : String) :
    Except KVError (Int × Int × Int × Int) :=
  match GetKeyValueString e name with
  | .error err => .error err
  | .ok s =>
      match (pySplitChar ' ' s).mapM pyInt with
      | none => .error .formatError
      | some ints =>
          match ints with
          | r :: g :: b :: a :: _ => .ok (r, g, b, a)
          | _ => .error .formatError

/-- The exact value of a parsed floating-point token, kept as a scaled
decimal: the token denotes `num / 10 ^ scale`. Machine-float rounding of the
engine is not modelled; the token's decimal value is carried exactly. -/
structure ParsedFloat where
  num : Int
  scale : Nat
deriving DecidableEq, Repr

/-- The unsigned part of a floating-point token: decimal digits with at most
one decimal point and at least one digit overall. -/
def parseFloatMag (l : List Char) : Option ParsedFloat :=
  match splitPredAux (fun c => c = '.') l [] with
  | [i] =>
      if i.length > 0 ∧ i.data.all Char.isDigit then
        some ⟨(digitsToNat i.data : Nat), 0⟩
      else none
  | [i, f] =>
      if (i.length > 0 ∨ f.length > 0) ∧ i.data.all Char.isDigit ∧ f.data.all Char.isDigit then
        some ⟨(digitsToNat i.data * 10 ^ f.length + digitsToNat f.data : Nat), f.length⟩
      else none
  | _ => none

/-- Modelled from the spec: parsing of one floating-point token, as consumed
by `sputils::UTIL_StringToFloatArray` (`utilities/sp_util.h`, not under
src): an optional sign followed by a digits-and-point magnitude. -/
def parseFloatToken (s : String) : Option ParsedFloat :=
  match s.data with
  | '-' :: rest => (parseFloatMag rest).map (fun x => ⟨-x.num, x.scale⟩)
  | '+' :: rest => parseFloatMag rest
  | l => parseFloatMag l

/-- The whitespace-separated tokens of a string, empty tokens dropped. -/
def wsTokens (s : String) : List String :=
  (splitPredAux Char.isWhitespace s.data []).filter (fun t => t ≠ "")

/-- Modelled from the spec: `sputils::UTIL_StringToFloatArray`
(`utilities/sp_util.h`, not under src). Per the spec, the string is read as
`count` whitespace-separated floating-point tokens: the call fails when
fewer than `count` tokens parse, and succeeds with exactly the first `count`
parsed values otherwise. -/
def UTIL_StringToFloatArray (count : Nat) (s : String) : Option (List ParsedFloat) :=
  let toks := (wsTokens s).take count
  if toks.length < count then none
  else toks.mapM parseFloatToken

/-- `CBaseEntityWrapper::GetKeyValueVector`: fetches the raw buffer through
the engine store (raising `NameError` with the field name and schema class
name on store failure — this function refetches the buffer itself and reads
it as inline text, with no special case for "model"), then parses three
floats from it with `UTIL_StringToFloatArray`, raising `ValueError`
("KeyValue does not seem to be a vector.", `formatError` here) when that
fails, and returns the three components as a vector. -/
def GetKeyValueVector (e : EntityState) (name : String) :
    Except KVError (ParsedFloat × ParsedFloat × ParsedFloat) :=
  match engineGetKeyValue e name with
  | none => .error (.fieldNotFound name e.dataClassName)
  | some buf =>
      match UTIL_StringToFloatArray 3 buf.asText with
      | some (x :: y :: z :: _) => .ok (x, y, z)
      | _ => .error .formatError

/-- A color as handed to `SetKeyValueColor`: the external SDK `Color` stores
four unsigned-char components, read back by `r()`, `g()`, `b()`, `a()` as
nonnegative integers. -/
structure Color where
  r : Nat
  g : Nat
  b : Nat
  a : Nat
deriving DecidableEq, Repr

/-- The string `Q_snprintf(string, 16, "%i %i %i %i", r, g, b, a)` would
produce with unlimited room: the four components in decimal, separated by
single spaces. -/
def formatColor (c : Color) : String :=
  Nat.repr c.r ++ " " ++ Nat.repr c.g ++ " " ++ Nat.repr c.b ++ " " ++ Nat.repr c.a

/-- `Q_snprintf` into the 16-byte local buffer of `SetKeyValueColor`: at
most 15 characters are kept, the 16th byte being the NUL terminator. -/
def snprintf16 (s : String) : String :=
  if s.length ≤ 15 then s else s.take 15

/-- `CBaseEntityWrapper::SetKeyValueColor`: formats the color into a
16-byte stack buffer with `Q_snprintf` and delegates to `SetKeyValue`. -/
def SetKeyValueColor (reinterp : String → String) (e : EntityState)
    (name : String) (c : Color) : Except KVError EntityState :=
  SetKeyValue reinterp e name (snprintf16 (formatColor c))

/-- The send-prop type tags exposed by `export_send_prop_types` (the SDK
`SendPropType` enum; the INT64 value is engine-generation specific and not
implemented for the targeted generation). -/
inductive SendPropType where
  | DPT_Int
  | DPT_Float
  | DPT_Vector
  | DPT_VectorXY
  | DPT_String
  | DPT_Array
  | DPT_DataTable
deriving DecidableEq, Repr

/-- Errors raised by the variant accessor bindings: `typeMismatch` is the
tag-check failure of the typed getter, `unsupportedOperation` the
`NotImplementedError` of the engine-generation-specific bindings. -/
inductive VariantError where
  | typeMismatch (expected : SendPropType) (actual : SendPropType)
  | unsupportedOperation
deriving DecidableEq, Repr

/-- The SDK `DVariant` as exposed by `export_send_prop_variant`: a type tag
`m_Type` alongside the payload members the claims touch (the float member
as an exact rational, the integer member, the string member). -/
structure DVariant where
  m_Type : SendPropType
  m_Float : Rat
  m_Int : Int
  m_pString : String
deriving DecidableEq, Repr

namespace SendPropVariantExt

/-- Modelled from the spec: the `SendPropVariantExt::get_typed_value
<prop_type, member_type, member>` template (`entities_props_wrap.h`, not
under src), here taking the tag and the member projection as arguments. Per
the spec, the payload member is returned only after the variant's tag is
checked against the requested tag, failing with a type-mismatch error
carrying the expected and actual tags otherwise. -/
def get_typed_value (T : SendPropType) (member : DVariant → α)
    (v : DVariant) : Except VariantError α :=
  if v.m_Type = T then .ok (member v) else .error (.typeMismatch T v.m_Type)

/-- Modelled from the spec: the `SendPropVariantExt::set_typed_value
<prop_type, member_type, member>` template (`entities_props_wrap.h`, not
under src), here taking the tag and the member updater as arguments: stores
the value into the member and sets the variant's tag to `T`. -/
def set_typed_value (T : SendPropType) (memberSet : DVariant → α → DVariant)
    (v : DVariant) (x : α) : DVariant :=
  memberSet { v with m_Type := T } x

/-- The `get_float` binding of `export_send_prop_variant`:
`get_typed_value<DPT_Float, float, &DVariant::m_Float>`. -/
def get_float : DVariant → Except VariantError Rat :=
  get_typed_value .DPT_Float DVariant.m_Float

/-- The `get_int` binding of `export_send_prop_variant`:
`get_typed_value<DPT_Int, long, &DVariant::m_Int>`. -/
def get_int : DVariant → Except VariantError Int :=
  get_typed_value .DPT_Int DVariant.m_Int

/-- The `set_float` binding of `export_send_prop_variant` exactly as the
source writes it: line 250 binds
`get_typed_value<DPT_Float, float, &DVariant::m_Float>` — the getter
template, not the setter template. -/
def set_float : DVariant → Except VariantError Rat :=
  get_typed_value .DPT_Float DVariant.m_Float

/-- The `set_int` binding of `export_send_prop_variant`:
`set_typed_value<DPT_Int, long, &DVariant::m_Int>`. -/
def set_int : DVariant → Int → DVariant :=
  set_typed_value .DPT_Int (fun v x => { v with m_Int := x })

/-- Modelled from the spec: the `NOT_IMPLEMENTED` binding of `get_int64`
(the macro lives in `utilities/wrap_macros.h`, not under src): the exposed
method unconditionally raises and never yields a value. -/
def get_int64 (_v : DVariant) : Except VariantError Int :=
  .error .unsupportedOperation

/-- Modelled from the spec: the `NOT_IMPLEMENTED` binding of `set_int64`
(the macro lives in `utilities/wrap_macros.h`, not under src): the exposed
method unconditionally raises; the variant is never modified nor a value
truncated. -/
def set_int64 (_v : DVariant) (_x : Int) : Except VariantError DVariant :=
  .error .unsupportedOperation

end SendPropVariantExt

/-- A concrete entity used to evaluate the codec: its "model" field holds a
buffer whose inline bytes are a raw pointer (rendered here as "PTRBYTES")
referencing the interned string "models/crate.mdl", and its other fields
hold plain inline text whose leading bytes dereference to unrelated junk. -/
def doorEnt : EntityState :=
  { dataClassName := "CFuncDoor",
    fields := fun n =>
      if n = "model" then some ⟨"PTRBYTES", "models/crate.mdl"⟩
      else if n = "rendercolor" then some ⟨"255 0 128 255", "junk"⟩
      else if n = "badcolor" then some ⟨"255 0 128", "junk"⟩
      else if n = "wildcolor" then some ⟨"1 2 3 444 5", "junk"⟩
      else if n = "origin" then some ⟨"1.0 2.0 3.0", "junk"⟩
      else if n = "badorigin" then some ⟨"1.0 2.0", "junk"⟩
      else if n = "targetname" then some ⟨"door1", "junk"⟩
      else none }

/-- A concrete entity whose fields hold the boolean-probe strings. -/
def boolEnt : EntityState :=
  { dataClassName := "CLogicBool",
    fields := fun n =>
      if n = "f1" then some ⟨"1", "junk"⟩
      else if n = "f0" then some ⟨"0", "junk"⟩
      else if n = "fe" then some ⟨"", "junk"⟩
      else if n = "ft" then some ⟨"true", "junk"⟩
      else none }

/-- One arbitrary instantiation of the engine-dependent byte readings the
spec leaves unspecified (the dereference of an inline-text buffer's leading
bytes, and the inline reading of a reference buffer's pointer bytes), used
only to make concrete witnesses closed. -/
def junkReinterp : String → String := fun _ => "JUNKBYTES"

/-- The entity produced by writing the text "models/crate.mdl" back to the
"model" field of `doorEnt` through the store (under `junkReinterp`): the
engine interns the written string, so the new buffer's leading bytes
dereference to it while their inline reading is junk. -/
def doorEntModelSet : EntityState :=
  { dataClassName := "CFuncDoor",
    fields := fun n =>
      if n = "model" then some ⟨junkReinterp "models/crate.mdl", "models/crate.mdl"⟩
      else doorEnt.fields n }

/-- The entity produced by writing the text "door1" back to the
"targetname" field of `doorEnt` through the store (under `junkReinterp`). -/
def doorEntNameSet : EntityState :=
  { dataClassName := "CFuncDoor",
    fields := fun n =>
      if n = "targetname" then some ⟨"door1", junkReinterp "door1"⟩
      else doorEnt.fields n }

lemma getString_of_store_none {e : EntityState} {name : String}
    (h : engineGetKeyValue e name = none) :
    GetKeyValueString e name = .error (.fieldNotFound name e.dataClassName) := by
  unfold GetKeyValueString
  rw [h]

lemma getString_of_store_some {e : EntityState} {name : String} {buf : Buffer}
    (h : engineGetKeyValue e name = some buf) :
    GetKeyValueString e name =
      .ok (if name = "model" then buf.deref else buf.asText) := by
  unfold GetKeyValueString
  rw [h]
  show (if name = "model" then (Except.ok buf.deref : Except KVError String)
    else .ok buf.asText) = _
  split <;> simp [*]

/-- C1: for every entity and field name present in the schema, getString on
the field literally named "model" dereferences the fetched raw buffer one
extra time and returns the final dereferenced text (never the intermediate
reference), while for every other field name the buffer content itself is
returned as the string. -/
theorem getString_model_double_deref (e : EntityState) (name : String)
    (buf : Buffer) (h : engineGetKeyValue e name = some buf) :
    GetKeyValueString e name =
      .ok (if name = "model" then buf.deref else buf.asText) ∧
    (name = "model" → buf.deref ≠ buf.asText →
      GetKeyValueString e name ≠ .ok buf.asText) := by
  refine ⟨getString_of_store_some h, ?_⟩
  intro hm hne hcontra
  rw [getString_of_store_some h, if_pos hm] at hcontra
  exact hne (Except.ok.inj hcontra)

/-- C1 witness: on `doorEnt`, reading "model" yields the interned string the
buffer's leading bytes reference, and reading "targetname" yields the
buffer's inline text. -/
theorem getString_model_double_deref_witness :
    GetKeyValueString doorEnt "model" = .ok "models/crate.mdl" ∧
    GetKeyValueString doorEnt "targetname" = .ok "door1" := by
  constructor
  · exact (getString_model_double_deref doorEnt "model"
      ⟨"PTRBYTES", "models/crate.mdl"⟩ rfl).1
  · exact (getString_model_double_deref doorEnt "targetname"
      ⟨"door1", "junk"⟩ rfl).1

/-- C4: for every entity and field name present in the schema (so that
getString succeeds with some string s), getBool returns true exactly when s
is the one-character string "1", and returns false for every other string. -/
theorem getBool_iff_string_one (e : EntityState) (name s : String)
    (h : GetKeyValueString e name = .ok s) :
    (GetKeyValueBool e name = .ok true ↔ s = "1") ∧
    (s ≠ "1" → GetKeyValueBool e name = .ok false) := by
  have hb : GetKeyValueBool e name = .ok (decide (s = "1")) := by
    unfold GetKeyValueBool
    rw [h]
  rw [hb]
  constructor
  · constructor
    · intro hok
      exact of_decide_eq_true (Except.ok.inj hok)
    · intro hs
      subst hs
      rfl
  · intro hne
    rw [decide_eq_false hne]

/-- C4 witness: on `boolEnt`, the field holding "1" reads as true, and the
fields holding "0", "" and "true" all read as false. -/
theorem getBool_iff_string_one_witness :
    GetKeyValueBool boolEnt "f1" = .ok true ∧
    GetKeyValueBool boolEnt "f0" = .ok false ∧
    GetKeyValueBool boolEnt "fe" = .ok false ∧
    GetKeyValueBool boolEnt "ft" = .ok false := by
  refine ⟨?_, ?_, ?_, ?_⟩
  · exact (getBool_iff_string_one boolEnt "f1" "1" rfl).1.mpr rfl
  · exact (getBool_iff_string_one boolEnt "f0" "0" rfl).2 (by decide)
  · exact (getBool_iff_string_one boolEnt "fe" "" rfl).2 (by decide)
  · exact (getBool_iff_string_one boolEnt "ft" "true" rfl).2 (by decide)

/-- C6: getString and setValue raise the field-not-found error carrying the
field name and the entity's schema class name exactly when the engine store
reports failure for that field, succeed exactly when the store reports
success, and the store's setter fails exactly on the fields its getter
reports absent. -/
theorem fieldNotFound_iff_store_reports_false (reinterp : String → String)
    (e : EntityState) (name v : String) :
    (GetKeyValueString e name = .error (.fieldNotFound name e.dataClassName) ↔
      engineGetKeyValue e name = none) ∧
    ((∃ s, GetKeyValueString e name = .ok s) ↔ engineGetKeyValue e name ≠ none) ∧
    (SetKeyValue reinterp e name v = .error (.fieldNotFound name e.dataClassName) ↔
      engineSetKeyValue reinterp e name v = none) ∧
    ((∃ e2, SetKeyValue reinterp e name v = .ok e2) ↔
      engineSetKeyValue reinterp e name v ≠ none) ∧
    (engineSetKeyValue reinterp e name v = none ↔ engineGetKeyValue e name = none) := by
  rcases hf : engineGetKeyValue e name with _ | buf
  · have hset : engineSetKeyValue reinterp e name v = none := by
      unfold engineSetKeyValue
      unfold engineGetKeyValue at hf
      rw [hf]
    have hsetw : SetKeyValue reinterp e name v =
        .error (.fieldNotFound name e.dataClassName) := by
      unfold SetKeyValue
      rw [hset]
    rw [getString_of_store_none hf, hset, hsetw]
    simp
  · have hset : engineSetKeyValue reinterp e name v = some
        { e with fields := fun n =>
            if n = name then some (writtenBuffer reinterp name v) else e.fields n } := by
      unfold engineSetKeyValue
      unfold engineGetKeyValue at hf
      rw [hf]
    have hsetw : SetKeyValue reinterp e name v = .ok
        { e with fields := fun n =>
            if n = name then some (writtenBuffer reinterp name v) else e.fields n } := by
      unfold SetKeyValue
      rw [hset]
    rw [getString_of_store_some hf, hset, hsetw]
    simp

/-- C3 counterexample: the claim demands a FormatError for the content
"1 2 3 444 5" (five tokens, one outside [0,255]); the code instead succeeds
and returns the first four parsed integers, unchecked. -/
theorem getColor_counterexample :
    GetKeyValueColor doorEnt "wildcolor" = .ok (1, 2, 3, 444) ∧
    GetKeyValueColor doorEnt "wildcolor" ≠ .error .formatError := by
  refine ⟨rfl, ?_⟩
  intro hcontra
  rw [show GetKeyValueColor doorEnt "wildcolor" = .ok (1, 2, 3, 444) from rfl] at hcontra
  exact Except.noConfusion hcontra

/-- C3 (amended): getColor splits the field's string form on single spaces,
parses every resulting token as a Python integer, and requires at least four
tokens: it fails with a format error when some token is not an integer or
fewer than four tokens are present, and otherwise returns the first four
parsed integers as (r, g, b, a) — tokens beyond the fourth are ignored and
no [0,255] range check is performed. -/
lemma getColor_eq_of_getString {e : EntityState} {name s : String}
    (h : GetKeyValueString e name = .ok s) :
    GetKeyValueColor e name =
      match (pySplitChar ' ' s).mapM pyInt with
      | none => .error .formatError
      | some ints =>
          match ints with
          | r :: g :: b :: a :: _ => .ok (r, g, b, a)
          | _ => .error .formatError := by
  unfold GetKeyValueColor
  rw [h]

theorem getColor_amended (e : EntityState) (name s : String)
    (h : GetKeyValueString e name = .ok s) :
    ((pySplitChar ' ' s).mapM pyInt = none →
      GetKeyValueColor e name = .error .formatError) ∧
    (∀ r g b a rest, (pySplitChar ' ' s).mapM pyInt = some (r :: g :: b :: a :: rest) →
      GetKeyValueColor e name = .ok (r, g, b, a)) ∧
    (∀ ints, (pySplitChar ' ' s).mapM pyInt = some ints → ints.length < 4 →
      GetKeyValueColor e name = .error .formatError) := by
  refine ⟨?_, ?_, ?_⟩
  · intro hm
    rw [getColor_eq_of_getString h, hm]
  · intro r g b a rest hm
    rw [getColor_eq_of_getString h, hm]
  · intro ints hm hlen
    rw [getColor_eq_of_getString h, hm]
    match ints, hlen with
    | [], _ => rfl
    | [_], _ => rfl
    | [_, _], _ => rfl
    | [_, _, _], _ => rfl
    | _ :: _ :: _ :: _ :: _, hlen =>
        simp only [List.length_cons] at hlen
        omega

/-- C3 witness: on `doorEnt`, the content "255 0 128 255" parses to the color
(255, 0, 128, 255), and the three-token content "255 0 128" fails with a
format error. -/
theorem getColor_amended_witness :
    GetKeyValueColor doorEnt "rendercolor" = .ok (255, 0, 128, 255) ∧
    GetKeyValueColor doorEnt "badcolor" = .error .formatError := by
  constructor
  · exact (getColor_amended doorEnt "rendercolor" "255 0 128 255" rfl).2.1
      255 0 128 255 [] rfl
  · exact (getColor_amended doorEnt "badcolor" "255 0 128" rfl).2.2
      [255, 0, 128] rfl (by decide)

/-- C5: for every entity and field name present in the schema, getVector3
parses the buffer's inline text with the three-float parser and returns the
three parsed components, failing with a format error when the parse fails;
the parse fails in particular whenever the text holds fewer than three
whitespace-separated tokens. -/
lemma getVector_eq_of_store_some {e : EntityState} {name : String} {buf : Buffer}
    (h : engineGetKeyValue e name = some buf) :
    GetKeyValueVector e name =
      match UTIL_StringToFloatArray 3 buf.asText with
      | some (x :: y :: z :: _) => .ok (x, y, z)
      | _ => .error .formatError := by
  unfold GetKeyValueVector
  rw [h]

theorem getVector3_three_floats (e : EntityState) (name : String) (buf : Buffer)
    (h : engineGetKeyValue e name = some buf) :
    (∀ x y z, UTIL_StringToFloatArray 3 buf.asText = some [x, y, z] →
      GetKeyValueVector e name = .ok (x, y, z)) ∧
    (UTIL_StringToFloatArray 3 buf.asText = none →
      GetKeyValueVector e name = .error .formatError) ∧
    ((wsTokens buf.asText).length < 3 →
      UTIL_StringToFloatArray 3 buf.asText = none) := by
  refine ⟨?_, ?_, ?_⟩
  · intro x y z hu
    rw [getVector_eq_of_store_some h, hu]
  · intro hu
    rw [getVector_eq_of_store_some h, hu]
  · intro hlen
    unfold UTIL_StringToFloatArray
    have hl : ((wsTokens buf.asText).take 3).length < 3 := by
      rw [List.length_take]
      omega
    rw [if_pos hl]

/-- C5 witness: on `doorEnt`, the content "1.0 2.0 3.0" reads as the vector
of the three parsed decimals 1.0, 2.0, 3.0 (each carried exactly as a scaled
decimal), and the two-token content "1.0 2.0" fails with a format error. -/
theorem getVector3_three_floats_witness :
    GetKeyValueVector doorEnt "origin" = .ok (⟨10, 1⟩, ⟨20, 1⟩, ⟨30, 1⟩) ∧
    GetKeyValueVector doorEnt "badorigin" = .error .formatError := by
  constructor
  · exact (getVector3_three_floats doorEnt "origin" ⟨"1.0 2.0 3.0", "junk"⟩ rfl).1
      ⟨10, 1⟩ ⟨20, 1⟩ ⟨30, 1⟩ rfl
  · exact (getVector3_three_floats doorEnt "badorigin" ⟨"1.0 2.0", "junk"⟩ rfl).2.1 rfl

/-- C2: line 250 of `entities_props_wrap_python.cpp` binds the exposed
`set_float` to the getter template `get_typed_value<DPT_Float, float,
&DVariant::m_Float>` instead of `set_typed_value`, so `set_float` reads (and
tag-checks) the float payload rather than storing a value — here it is
literally equal to `get_float` and raises a type mismatch on an
integer-tagged variant — while `set_int` stores the payload and retags as
the claim describes. -/
theorem set_float_bound_to_getter :
    SendPropVariantExt.set_float = SendPropVariantExt.get_float ∧
    SendPropVariantExt.set_float ⟨.DPT_Int, 0, 7, ""⟩ =
      .error (.typeMismatch .DPT_Float .DPT_Int) ∧
    SendPropVariantExt.set_int ⟨.DPT_Float, 2, 0, ""⟩ 5 = ⟨.DPT_Int, 2, 5, ""⟩ :=
  ⟨rfl, rfl, rfl⟩

/-- C7: the typed getter succeeds exactly when the variant's tag equals the
requested tag; on a float-tagged variant, get_int fails with a type mismatch
carrying the expected and actual tags while get_float returns the stored
float payload unchanged. -/
theorem getTyped_checks_tag (v : DVariant) (hv : v.m_Type = .DPT_Float) :
    SendPropVariantExt.get_int v = .error (.typeMismatch .DPT_Int .DPT_Float) ∧
    SendPropVariantExt.get_float v = .ok v.m_Float ∧
    (∀ (α : Type) (member : DVariant → α) (w : DVariant) (T : SendPropType),
      (∃ x, SendPropVariantExt.get_typed_value T member w = .ok x) ↔ w.m_Type = T) := by
  refine ⟨?_, ?_, ?_⟩
  · unfold SendPropVariantExt.get_int SendPropVariantExt.get_typed_value
    rw [hv]
    rfl
  · unfold SendPropVariantExt.get_float SendPropVariantExt.get_typed_value
    rw [hv]
    rfl
  · intro α member w T
    constructor
    · rintro ⟨x, hx⟩
      unfold SendPropVariantExt.get_typed_value at hx
      by_contra hne
      rw [if_neg hne] at hx
      exact Except.noConfusion hx
    · intro hT
      refine ⟨member w, ?_⟩
      unfold SendPropVariantExt.get_typed_value
      rw [if_pos hT]

/-- C7 witness: on the concrete float-tagged variant holding 2.0, get_int
fails with the Integer-expected/Float-actual mismatch and get_float returns
2.0 unchanged. -/
theorem getTyped_checks_tag_witness :
    SendPropVariantExt.get_int ⟨.DPT_Float, 2, 7, "s"⟩ =
      .error (.typeMismatch .DPT_Int .DPT_Float) ∧
    SendPropVariantExt.get_float ⟨.DPT_Float, 2, 7, "s"⟩ = .ok 2 := by
  have h := getTyped_checks_tag ⟨.DPT_Float, 2, 7, "s"⟩ rfl
  exact ⟨h.1, h.2.1⟩

/-- C8: the 64-bit integer accessors of the variant always fail with the
unsupported-operation error and never return a value. -/
theorem int64_always_unsupported (v : DVariant) (x : Int) :
    SendPropVariantExt.get_int64 v = .error .unsupportedOperation ∧
    SendPropVariantExt.set_int64 v x = .error .unsupportedOperation ∧
    (∀ n : Int, SendPropVariantExt.get_int64 v ≠ .ok n) ∧
    (∀ w : DVariant, SendPropVariantExt.set_int64 v x ≠ .ok w) := by
  refine ⟨rfl, rfl, ?_, ?_⟩
  · intro n hc
    exact Except.noConfusion hc
  · intro w hc
    exact Except.noConfusion hc

/-- C9: for every entity and every field name present in the schema,
reading the field's textual form with getString, writing that same text back
with setValue, and reading again with getString yields the same string —
including the field literally named "model", whose freshly written buffer
holds an embedded reference to the interned written text that the second
read dereferences back to it. -/
theorem roundTrip_identity (reinterp : String → String)
    (e e2 : EntityState) (name s : String)
    (h1 : GetKeyValueString e name = .ok s)
    (h2 : SetKeyValue reinterp e name s = .ok e2) :
    GetKeyValueString e2 name = .ok s := by
  rcases hf : engineGetKeyValue e name with _ | buf
  · rw [getString_of_store_none hf] at h1
    exact Except.noConfusion h1
  · have hset : engineSetKeyValue reinterp e name s = some
        { e with fields := fun n =>
            if n = name then some (writtenBuffer reinterp name s) else e.fields n } := by
      unfold engineSetKeyValue
      unfold engineGetKeyValue at hf
      rw [hf]
    have h2' : SetKeyValue reinterp e name s = .ok
        { e with fields := fun n =>
            if n = name then some (writtenBuffer reinterp name s) else e.fields n } := by
      unfold SetKeyValue
      rw [hset]
    rw [h2'] at h2
    have he2 : e2 = { e with fields := fun n =>
        if n = name then some (writtenBuffer reinterp name s) else e.fields n } :=
      (Except.ok.inj h2).symm
    subst he2
    have hf2 : engineGetKeyValue
        { e with fields := fun n =>
            if n = name then some (writtenBuffer reinterp name s) else e.fields n } name =
        some (writtenBuffer reinterp name s) := by
      unfold engineGetKeyValue
      simp
    rw [getString_of_store_some hf2]
    by_cases hm : name = "model" <;> simp [hm, writtenBuffer]

/-- C9 witness: on `doorEnt`, the round trip holds for the field "model"
(read "models/crate.mdl", write it back, read "models/crate.mdl" again) and
for the plain field "targetname" (read/write/read "door1"). -/
theorem roundTrip_identity_witness :
    GetKeyValueString doorEntModelSet "model" = .ok "models/crate.mdl" ∧
    GetKeyValueString doorEntNameSet "targetname" = .ok "door1" := by
  constructor
  · exact roundTrip_identity junkReinterp doorEnt doorEntModelSet "model"
      "models/crate.mdl" rfl rfl
  · exact roundTrip_identity junkReinterp doorEnt doorEntNameSet "targetname"
      "door1" rfl rfl

set_option maxRecDepth 8192 in
lemma repr_length_le_three_fin : ∀ i : Fin 256, (Nat.repr i.val).length ≤ 3 := by
  decide

lemma repr_length_le_three {n : Nat} (h : n ≤ 255) : (Nat.repr n).length ≤ 3 := by
  have hf := repr_length_le_three_fin ⟨n, by omega⟩
  simpa using hf

/-- C10: for a color whose four components lie in [0, 255], the formatted
decimal string "r g b a" is at most 15 characters long, so it fits
untruncated (with its NUL terminator) in the 16-byte formatting buffer, and
setColor passes exactly that string to the generic field setter. -/
theorem setColor_formats_within_buffer (reinterp : String → String)
    (e : EntityState) (name : String) (c : Color)
    (hr : c.r ≤ 255) (hg : c.g ≤ 255) (hb : c.b ≤ 255) (ha : c.a ≤ 255) :
    (formatColor c).length ≤ 15 ∧
    snprintf16 (formatColor c) = formatColor c ∧
    SetKeyValueColor reinterp e name c = SetKeyValue reinterp e name (formatColor c) := by
  have h1 := repr_length_le_three hr
  have h2 := repr_length_le_three hg
  have h3 := repr_length_le_three hb
  have h4 := repr_length_le_three ha
  have hsp : (" " : String).length = 1 := rfl
  have hlen : (formatColor c).length ≤ 15 := by
    unfold formatColor
    rw [String.length_append, String.length_append, String.length_append,
      String.length_append, String.length_append, String.length_append, hsp]
    omega
  have hsnp : snprintf16 (formatColor c) = formatColor c := by
    unfold snprintf16
    rw [if_pos hlen]
  refine ⟨hlen, hsnp, ?_⟩
  unfold SetKeyValueColor
  rw [hsnp]

/-- C10 witness: the color (255, 0, 128, 255) formats to the 13-character
string "255 0 128 255", fits the buffer, and is passed verbatim to the
generic setter on `doorEnt`. -/
theorem setColor_formats_within_buffer_witness :
    formatColor ⟨255, 0, 128, 255⟩ = "255 0 128 255" ∧
    (formatColor ⟨255, 0, 128, 255⟩).length ≤ 15 ∧
    SetKeyValueColor junkReinterp doorEnt "rendercolor" ⟨255, 0, 128, 255⟩ =
      SetKeyValue junkReinterp doorEnt "rendercolor" (formatColor ⟨255, 0, 128, 255⟩) := by
  have h := setColor_formats_within_buffer junkReinterp doorEnt "rendercolor"
    ⟨255, 0, 128, 255⟩ (by decide) (by decide) (by decide) (by decide)
  exact ⟨rfl, h.1, h.2.2⟩

end SourcePython
